import Mathlib

/-!
Verification of the Paradox IP150 client (`ip150.py`): credential encoding
(MD5 + the non-standard RC4 variant), the session state machine
(login/logout/get_updates/cancel_updates/set_area_action guards and effects),
the status-page decoder (`_js2array` + `get_info`), and the update poller
(`_get_updates` diff and retry logic), shallowly embedded as executable
Lean functions.
-/

namespace IP150

/-! ## Basic helpers -/

/-- Two to the 32nd, the modulus for 32-bit arithmetic. -/
def u32 : Nat := 4294967296

/-- Left-rotate a 32-bit value by `s` bits (for `0 < s < 32`, `x < 2 ^ 32`). -/
def rotl32 (x s : Nat) : Nat := ((x <<< s) % u32) ||| (x >>> (32 - s))

/-- Little-endian byte decomposition of `value` into `n` bytes. -/
def leBytes (n value : Nat) : List Nat :=
  (List.range n).map (fun i => (value >>> (8 * i)) % 256)

/-- Uppercase hexadecimal digit for `n < 16`. -/
def hexDigit (n : Nat) : Char :=
  if n < 10 then Char.ofNat (48 + n) else Char.ofNat (55 + n)

/-- A byte as two uppercase hex digits, as in Python `'%02X' % b`. -/
def byteHex (b : Nat) : List Char := [hexDigit (b / 16), hexDigit (b % 16)]

/-- Uppercase hex encoding of a byte list. -/
def bytesHex (bs : List Nat) : String := String.mk (bs.flatMap byteHex)

/-- The character codes of a string (Python `ord` of each character). -/
def strBytes (s : String) : List Nat := s.data.map Char.toNat

/-! ## MD5 (for `hashlib.md5(...).hexdigest().upper()`) -/

/-- The 64 MD5 round constants `K[i] = floor(abs(sin(i+1)) * 2^32)`. -/
def md5K : List Nat :=
  [0xd76aa478, 0xe8c7b756, 0x242070db, 0xc1bdceee,
   0xf57c0faf, 0x4787c62a, 0xa8304613, 0xfd469501,
   0x698098d8, 0x8b44f7af, 0xffff5bb1, 0x895cd7be,
   0x6b901122, 0xfd987193, 0xa679438e, 0x49b40821,
   0xf61e2562, 0xc040b340, 0x265e5a51, 0xe9b6c7aa,
   0xd62f105d, 0x02441453, 0xd8a1e681, 0xe7d3fbc8,
   0x21e1cde6, 0xc33707d6, 0xf4d50d87, 0x455a14ed,
   0xa9e3e905, 0xfcefa3f8, 0x676f02d9, 0x8d2a4c8a,
   0xfffa3942, 0x8771f681, 0x6d9d6122, 0xfde5380c,
   0xa4beea44, 0x4bdecfa9, 0xf6bb4b60, 0xbebfbc70,
   0x289b7ec6, 0xeaa127fa, 0xd4ef3085, 0x04881d05,
   0xd9d4d039, 0xe6db99e5, 0x1fa27cf8, 0xc4ac5665,
   0xf4292244, 0x432aff97, 0xab9423a7, 0xfc93a039,
   0x655b59c3, 0x8f0ccc92, 0xffeff47d, 0x85845dd1,
   0x6fa87e4f, 0xfe2ce6e0, 0xa3014314, 0x4e0811a1,
   0xf7537e82, 0xbd3af235, 0x2ad7d2bb, 0xeb86d391]

/-- The 64 MD5 per-round left-rotation amounts. -/
def md5S : List Nat :=
  [7, 12, 17, 22, 7, 12, 17, 22, 7, 12, 17, 22, 7, 12, 17, 22,
   5, 9, 14, 20, 5, 9, 14, 20, 5, 9, 14, 20, 5, 9, 14, 20,
   4, 11, 16, 23, 4, 11, 16, 23, 4, 11, 16, 23, 4, 11, 16, 23,
   6, 10, 15, 21, 6, 10, 15, 21, 6, 10, 15, 21, 6, 10, 15, 21]

/-- The MD5 nonlinear function for round `r` applied to `b`, `c`, `d`. -/
def md5F (r b c d : Nat) : Nat :=
  if r < 16 then (b &&& c) ||| ((b ^^^ 0xffffffff) &&& d)
  else if r < 32 then (d &&& b) ||| ((d ^^^ 0xffffffff) &&& c)
  else if r < 48 then b ^^^ c ^^^ d
  else c ^^^ (b ||| (d ^^^ 0xffffffff))

/-- The MD5 message-word index for round `r`. -/
def md5G (r : Nat) : Nat :=
  if r < 16 then r
  else if r < 32 then (5 * r + 1) % 16
  else if r < 48 then (3 * r + 5) % 16
  else (7 * r) % 16

/-- One MD5 round: state is `(a, b, c, d)`, `M` the 16 words of the block. -/
def md5Round (M : List Nat) (st : Nat × Nat × Nat × Nat) (r : Nat) :
    Nat × Nat × Nat × Nat :=
  let (a, b, c, d) := st
  let f := (md5F r b c d + a + md5K.getD r 0 + M.getD (md5G r) 0) % u32
  (d, (b + rotl32 f (md5S.getD r 0)) % u32, b, c)

/-- Process one 512-bit block (16 words `M`) into the running state. -/
def md5Block (st : Nat × Nat × Nat × Nat) (M : List Nat) :
    Nat × Nat × Nat × Nat :=
  let (a, b, c, d) := (List.range 64).foldl (md5Round M) st
  ((st.1 + a) % u32, (st.2.1 + b) % u32, (st.2.2.1 + c) % u32,
   (st.2.2.2 + d) % u32)

/-- MD5 padding: `0x80`, zeros to 56 mod 64, then the bit length in 8 LE bytes. -/
def md5Pad (msg : List Nat) : List Nat :=
  let len := msg.length
  msg ++ [0x80] ++ List.replicate ((119 - len % 64) % 64) 0 ++
    leBytes 8 ((len * 8) % (u32 * u32))

/-- Assemble bytes into 32-bit little-endian words. -/
def toWords : List Nat → List Nat
  | b0 :: b1 :: b2 :: b3 :: rest =>
      (b0 + 256 * b1 + 65536 * b2 + 16777216 * b3) :: toWords rest
  | _ => []

/-- Split a word list into blocks of 16 (fuel-driven for structural recursion). -/
def toBlocksAux : Nat → List Nat → List (List Nat)
  | 0, _ => []
  | _, [] => []
  | fuel + 1, ws => ws.take 16 :: toBlocksAux fuel (ws.drop 16)

/-- Split a word list into blocks of 16 words. -/
def toBlocks (ws : List Nat) : List (List Nat) := toBlocksAux ws.length ws

/-- MD5 digest of a byte list, as 16 bytes. -/
def md5Bytes (msg : List Nat) : List Nat :=
  let (a, b, c, d) :=
    (toBlocks (toWords (md5Pad msg))).foldl md5Block
      (0x67452301, 0xefcdab89, 0x98badcfe, 0x10325476)
  leBytes 4 a ++ leBytes 4 b ++ leBytes 4 c ++ leBytes 4 d

/-- `hashlib.md5(msg).hexdigest().upper()`: uppercase hex MD5 digest. -/
def md5HexUpper (msg : List Nat) : String := bytesHex (md5Bytes msg)

/-! ## The non-standard RC4 variant (`_paradox_rc4`) -/

/-- Python `range(start, stop, -1)` over integers, as the list of visited
values (counts down by one while above `stop`). -/
def pyRangeDown (start stop : Int) : List Int :=
  go ((start - stop).toNat) start
where
  go : Nat → Int → List Int
    | 0, _ => []
    | n + 1, s => s :: go n (s - 1)

/-- Python simultaneous swap `S[i], S[j] = S[j], S[i]` on a list. -/
def swapList (l : List Nat) (i j : Nat) : List Nat :=
  let vi := l.getD i 0
  let vj := l.getD j 0
  (l.set i vj).set j vi

/-- The sequence of indices `i` visited by the key-scheduling loop
`for i in range(len(key) - 1, -1, -1)` of `_paradox_rc4`. -/
def ksaIndices (key : List Nat) : List Int :=
  pyRangeDown ((key.length : Int) - 1) (-1)

/-- One iteration of the key-scheduling loop:
`j = (j + S[i] + ord(key[i])) % 256; S[i], S[j] = S[j], S[i]`. -/
def ksaStep (key : List Nat) (Sj : List Nat × Nat) (i : Int) : List Nat × Nat :=
  let (S, j) := Sj
  let i' := i.toNat
  let j' := (j + S.getD i' 0 + key.getD i' 0) % 256
  (swapList S i' j', j')

/-- The key-scheduling phase of `_paradox_rc4`: `S = list(range(256))`, `j = 0`,
then the loop over `ksaIndices key`. -/
def ksa (key : List Nat) : List Nat × Nat :=
  (ksaIndices key).foldl (ksaStep key) (List.range 256, 0)

/-- One iteration of the output loop of `_paradox_rc4`; state is
`(S, i, j, out)` and `ch` the current data byte. -/
def prgaStep (st : List Nat × Nat × Nat × List Nat) (ch : Nat) :
    List Nat × Nat × Nat × List Nat :=
  let (S, i, j, out) := st
  let i := i % 256
  let j := (j + S.getD i 0) % 256
  let S := swapList S i j
  let b := ch ^^^ S.getD ((S.getD i 0 + S.getD j 0) % 256) 0
  (S, i + 1, j, out ++ [b])

/-- `Paradox_IP150._paradox_rc4(data, key)`: key scheduling with descending
index, then the output loop with `i = j = 0`, hex-encoded uppercase. -/
def paradox_rc4 (data key : String) : String :=
  let S := (ksa (strBytes key)).1
  let (_, _, _, out) := (strBytes data).foldl prgaStep (S, 0, 0, [])
  bytesHex out

/-! ## Credential encoding (`_to_8bits`, `_prep_cred`) -/

/-- `Paradox_IP150._to_8bits(s)`: each character code reduced modulo 256. -/
def to_8bits (s : String) : String :=
  String.mk (s.data.map (fun c => Char.ofNat (c.toNat % 256)))

/-- `Paradox_IP150._prep_cred(user, pwd, sess)`: returns the pair
`(p, u)` of login parameters. -/
def prep_cred (user pwd sess : String) : String × String :=
  let pwd_8bits := to_8bits pwd
  let pwd_md5 := md5HexUpper (strBytes pwd_8bits)
  let spass := pwd_md5 ++ sess
  (md5HexUpper (strBytes spass), paradox_rc4 user spass)

/-! ## String scanning helpers (for `str.find`, `str.count`, `re.search`) -/

/-- A single apostrophe, used to build messages and markers from the source
without apostrophe literals. -/
def apos : String := String.mk [Char.ofNat 39]

/-- Index of the first occurrence of `pat` in `text` (Python `str.find`,
with absence as `none` instead of `-1`). -/
def strFind (pat : List Char) : List Char → Option Nat
  | [] => if pat.isEmpty then some 0 else none
  | c :: rest =>
    if pat.isPrefixOf (c :: rest) then some 0
    else (strFind pat rest).map (· + 1)

/-- Whether `pat` occurs in `text`; `str.count(pat) > 0` for nonempty `pat`. -/
def containsSub (pat text : List Char) : Bool := (strFind pat text).isSome

/-- Python slice `l[a:b]` (clamping at the ends). -/
def slice (l : List Char) (a b : Nat) : List Char := (l.drop a).take (b - a)

/-- The lazy group of the regex tail `(.*?)\);` at the current position:
the shortest run of non-newline characters followed by the literal two
characters close-paren, semicolon. -/
def lazyContent : List Char → Option (List Char)
  | ')' :: ';' :: _ => some []
  | c :: rest => if c = '\n' then none else (lazyContent rest).map (c :: ·)
  | [] => none

/-- Leftmost match of the regex `<pre>(.*?)\);` in `text`: scan for the first
position where the literal prefix `pre` matches and the lazy group succeeds,
returning the group. -/
def scanMatch (pre : List Char) : List Char → Option (List Char)
  | [] => none
  | c :: rest =>
    if pre.isPrefixOf (c :: rest) then
      match lazyContent ((c :: rest).drop pre.length) with
      | some content => some content
      | none => scanMatch pre rest
    else scanMatch pre rest

/-! ## JSON integer-array parsing (for `json.loads` of the extracted list) -/

/-- Split on commas, keeping empty tokens. -/
def splitComma : List Char → List (List Char)
  | [] => [[]]
  | c :: rest =>
    if c = ',' then [] :: splitComma rest
    else
      match splitComma rest with
      | t :: ts => (c :: t) :: ts
      | [] => [[c]]

/-- JSON whitespace. -/
def isWs (c : Char) : Bool := c = ' ' || c = '\t' || c = '\n' || c = '\r'

/-- Trim JSON whitespace from both ends. -/
def trimWs (t : List Char) : List Char :=
  ((t.dropWhile isWs).reverse.dropWhile isWs).reverse

/-- Parse a nonempty all-digit token as a natural number. -/
def parseDigits (t : List Char) : Option Nat :=
  if t.isEmpty || ¬ t.all (·.isDigit) then none
  else some (t.foldl (fun acc c => acc * 10 + (c.toNat - 48)) 0)

/-- Parse an optionally negated integer token. -/
def parseInt? : List Char → Option Int
  | '-' :: rest => (parseDigits rest).map (fun n => -(n : Int))
  | t => (parseDigits t).map (fun n => (n : Int))

/-- `json.loads('[' + content + ']')` restricted to integer arrays. -/
def parseIntList (content : List Char) : Option (List Int) :=
  if (trimWs content).isEmpty then some []
  else (splitComma content).mapM (fun t => parseInt? (trimWs t))

/-! ## The status decoder (`_js2array`, `_tables_map`, `get_info`) -/

/-- `Paradox_IP150._js2array(varname, script)`: the regex
`varname = new Array\((.*?)\);` applied to `script`, the group parsed as a
JSON array.  A failed search raises `AttributeError` (on `res.group`), a
failed parse raises `JSONDecodeError`; both are surfaced as errors here. -/
def js2array (varname script : String) : Except String (List Int) :=
  match scanMatch (varname ++ " = new Array(").data script.data with
  | none => .error "AttributeError"
  | some content =>
    match parseIntList content with
    | none => .error "JSONDecodeError"
    | some l => .ok l

/-- The `'map'` of `_tables_map['zones_status']`; `none` is a `KeyError`. -/
def zones_map : Int → Option String
  | 0 => some "Closed"
  | 1 => some "Open"
  | 2 => some "In_alarm"
  | 3 => some "Closed_Trouble"
  | 4 => some "Open_Trouble"
  | 5 => some "Closed_Memory"
  | 6 => some "Open_Memory"
  | 7 => some "Bypass"
  | 8 => some "Closed_Trouble2"
  | 9 => some "Open_Trouble2"
  | _ => none

/-- The `'map'` of `_tables_map['areas_status']`; `none` is a `KeyError`. -/
def areas_map : Int → Option String
  | 0 => some "Unset"
  | 1 => some "Disarmed"
  | 2 => some "Armed"
  | 3 => some "Triggered"
  | 4 => some "Armed_sleep"
  | 5 => some "Armed_stay"
  | 6 => some "Entry_delay"
  | 7 => some "Exit_delay"
  | 8 => some "Ready"
  | 9 => some "Not_ready"
  | 10 => some "Instant"
  | _ => none

/-- `[(i, map[x]) for i, x in enumerate(tmp, start=i0)]`: pair each raw code
with its 1-based position and mapped name; `none` on an unknown code. -/
def decodeFrom (m : Int → Option String) : Nat → List Int → Option (List (Nat × String))
  | _, [] => some []
  | i, x :: xs =>
    match m x, decodeFrom m (i + 1) xs with
    | some v, some rest => some ((i, v) :: rest)
    | _, _ => none

/-- The result of `get_info`: the two decoded status tables, in the
dictionary's insertion order (`zones_status` first). -/
structure Snapshot where
  zones_status : List (Nat × String)
  areas_status : List (Nat × String)
deriving DecidableEq, Repr

/-- An error raised inside `get_info`: either a `Paradox_IP150_Error` (the
only kind the poller's retry logic catches) or another Python exception. -/
inductive GErr where
  | paradox (msg : String)
  | pyerror (msg : String)
deriving DecidableEq, Repr

instance {ε α : Type} [DecidableEq ε] [DecidableEq α] : DecidableEq (Except ε α) :=
  fun x y =>
    match x, y with
    | .error a, .error b =>
      if h : a = b then isTrue (by rw [h])
      else isFalse (fun he => h (by injection he))
    | .ok a, .ok b =>
      if h : a = b then isTrue (by rw [h])
      else isFalse (fun he => h (by injection he))
    | .error _, .ok _ => isFalse (fun he => by injection he)
    | .ok _, .error _ => isFalse (fun he => by injection he)

/-- The parsed status page handed to `get_info`'s decoding logic: whether a
form named `statuslive` is present, and the first script element's text. -/
structure StatusPage where
  has_statuslive_form : Bool
  script : String
deriving DecidableEq, Repr

/-- The decoding body of `get_info`: check the `statuslive` form marker, then
extract and map both tables in `_tables_map` order. -/
def get_info_core (page : StatusPage) : Except GErr Snapshot :=
  if ¬ page.has_statuslive_form then
    .error (.paradox "Could not retrieve status information")
  else
    match js2array "tbl_statuszone" page.script with
    | .error e => .error (.pyerror e)
    | .ok zcodes =>
      match decodeFrom zones_map 1 zcodes with
      | none => .error (.pyerror "KeyError")
      | some zs =>
        match js2array "tbl_useraccess" page.script with
        | .error e => .error (.pyerror e)
        | .ok acodes =>
          match decodeFrom areas_map 1 acodes with
          | none => .error (.pyerror "KeyError")
          | some ar => .ok ⟨zs, ar⟩

/-! ## The session state machine -/

/-- An HTTP request issued by the client (endpoint plus the parameters that
identify it). -/
inductive Request where
  | login_page
  | default_page (p u : String)
  | keep_alive
  | logout_page
  | statuslive
  | statuslive_action (area value : String)
deriving DecidableEq, Repr

/-- The mutable state of a `Paradox_IP150` instance: `_logged_in`, whether
`_keepalive` holds a thread, whether `_updates` holds a thread, and the
`_stop_updates` event flag. -/
structure Session where
  logged_in : Bool
  keepalive : Bool
  updates : Bool
  stop_updates : Bool
deriving DecidableEq, Repr

/-- The state built by `__init__`. -/
def initSession : Session := ⟨false, false, false, false⟩

/-- The message of the `_logged_only` decorator's error. -/
def notLoggedMsg : String := "Not logged in; please use login() first."

/-- The HTTP response bodies the environment supplies to `login`. -/
structure LoginEnv where
  login_page_text : String
  default_page_text : String
deriving DecidableEq, Repr

/-- The wrong-credentials marker `login` counts in the default page. -/
def redirectMarker : String :=
  "top.location.href=" ++ apos ++ "login_page.html" ++ apos ++ ";"

/-- `Paradox_IP150.login(user, pwd, keep_alive_interval)` against the
responses in `env`: returns the new state, the requests issued in order, and
the raised error message if any. -/
def login (s : Session) (user pwd : String) (keep_alive_interval : Int)
    (env : LoginEnv) : Session × List Request × Option String :=
  if s.logged_in then
    (s, [], some "Already logged in; please use logout() first.")
  else
    match strFind "loginaff".data env.login_page_text.data with
    | none =>
      (s, [.login_page],
       some ("Wrong page fetched. Did you connect to the right server and "
             ++ "port? Server returned: " ++ env.login_page_text))
    | some off =>
      let sess := String.mk (slice env.login_page_text.data (off + 10) (off + 26))
      let creds := prep_cred user pwd sess
      let reqs := [Request.login_page, Request.default_page creds.1 creds.2]
      if containsSub redirectMarker.data env.default_page_text.data then
        (s, reqs, some "Could not login, wrong credentials provided.")
      else
        let s1 := if keep_alive_interval ≠ 0 then { s with keepalive := true } else s
        ({ s1 with logged_in := true }, reqs, none)

/-- `Paradox_IP150.logout()` with the logout page answering `status_code`:
cancel and clear the keepalive, signal and clear the updates thread, request
the logout page, and only then check the status and clear `_logged_in`. -/
def logout (s : Session) (status_code : Nat) :
    Session × List Request × Option String :=
  if ¬ s.logged_in then (s, [], some notLoggedMsg)
  else
    let s1 := if s.keepalive then { s with keepalive := false } else s
    let s2 :=
      if s1.updates then { s1 with stop_updates := true, updates := false }
      else s1
    if status_code ≠ 200 then (s2, [.logout_page], some "Error logging out")
    else ({ s2 with logged_in := false }, [.logout_page], none)

/-- The outcome of the status request inside `get_info`: a timeout or a
(parsed) page. -/
inductive GetResp where
  | timeout
  | page (p : StatusPage)
deriving DecidableEq, Repr

/-- `Paradox_IP150.get_info()` against the response `resp`: the `_logged_only`
guard, then the request, then decoding. -/
def get_info (s : Session) (resp : GetResp) :
    List Request × Except GErr Snapshot :=
  if ¬ s.logged_in then ([], .error (.paradox notLoggedMsg))
  else
    match resp with
    | .timeout =>
      ([.statuslive],
       .error (.paradox "Could not retrieve status information: timeout"))
    | .page p => ([.statuslive], get_info_core p)

/-- `_areas_action_map`. -/
def areas_action_map : String → Option String
  | "Disarm" => some "d"
  | "Arm" => some "r"
  | "Arm_sleep" => some "p"
  | "Arm_stay" => some "s"
  | _ => none

/-- The message of the invalid-action error, listing the valid names as
Python renders `list(self._areas_action_map.keys())`. -/
def invalidActionMsg (action : String) : String :=
  "Invalid action \"" ++ action ++
    ("\" provided. Valid actions are ["
      ++ apos ++ "Disarm" ++ apos ++ ", " ++ apos ++ "Arm" ++ apos ++ ", "
      ++ apos ++ "Arm_sleep" ++ apos ++ ", " ++ apos ++ "Arm_stay" ++ apos ++ "]")

/-- Python `'%02d' % n` for the values reachable here (`n > -10`). -/
def format02 (n : Int) : String :=
  if 0 ≤ n ∧ n < 10 then "0" ++ toString n else toString n

/-- `Paradox_IP150.set_area_action(area, action)` with the action request
answering `status_code`: guard, 0-base the area, validate it, validate the
action, then submit. -/
def set_area_action (s : Session) (area : Int) (action : String)
    (status_code : Nat) : List Request × Option String :=
  if ¬ s.logged_in then ([], some notLoggedMsg)
  else
    let area := area - 1
    if area < 0 then ([], some "Invalid area provided.")
    else
      match areas_action_map action with
      | none => ([], some (invalidActionMsg action))
      | some code =>
        let req := Request.statuslive_action (format02 area) code
        if status_code ≠ 200 then ([req], some "Error setting the area action")
        else ([req], none)

/-- `Paradox_IP150.get_updates(on_update, ..., poll_interval)`: guard, check
the callback and the interval, reject a running updates thread, else start
one. -/
def get_updates (s : Session) (on_update : Bool) (poll_interval : Int) :
    Session × Option String :=
  if ¬ s.logged_in then (s, some notLoggedMsg)
  else if ¬ on_update then (s, some "The callable on_update must be provided.")
  else if poll_interval ≤ 0 then
    (s, some "The polling interval must be greater than 0.0 seconds.")
  else if s.updates then (s, some "Already getting updates.")
  else ({ s with updates := true }, none)

/-- `Paradox_IP150.cancel_updates()`: guard, then signal and clear the
updates thread, or fail if none is running. -/
def cancel_updates (s : Session) : Session × Option String :=
  if ¬ s.logged_in then (s, some notLoggedMsg)
  else if s.updates then
    ({ s with stop_updates := true, updates := false }, none)
  else (s, some "Not currently getting updates. Use get_updates() first.")

/-- The `finally` clause of `_get_updates`: on any exit of the poller body the
stop event is cleared; nothing else of the session changes (in particular
`_updates` keeps its thread handle and `_logged_in` stays). -/
def pollerExit (s : Session) : Session := { s with stop_updates := false }

/-! ## The update poller (`_get_updates`) -/

/-- The dictionary `updated_state` built on one tick: per category, `none`
when the key is absent and `some l` when it maps to the entry list `l`. -/
structure Delta where
  zones_status : Option (List (Nat × String))
  areas_status : Option (List (Nat × String))
deriving DecidableEq, Repr

/-- The inner diff loop for one category present in both states: entries of
`zip(cur_state[d1], prev_state[d1])` whose sides differ, keeping the current
side. -/
def diffList (cur prev : List (Nat × String)) : List (Nat × String) :=
  (cur.zip prev).filterMap (fun p => if p.1 ≠ p.2 then some p.1 else none)

/-- The `updated_state` entry for a category present in both states: absent
when no zipped pair differs. -/
def diffCat (cur prev : List (Nat × String)) : Option (List (Nat × String)) :=
  let d := diffList cur prev
  if d.isEmpty then none else some d

/-- One tick's `updated_state`: with an empty previous state (`prev = none`,
the first tick) every category is copied in full; otherwise each category is
diffed positionally. -/
def computeDelta (prev : Option Snapshot) (cur : Snapshot) : Delta :=
  match prev with
  | none => ⟨some cur.zones_status, some cur.areas_status⟩
  | some p =>
    ⟨diffCat cur.zones_status p.zones_status,
     diffCat cur.areas_status p.areas_status⟩

/-- `len(updated_state) > 0`: the condition for invoking `on_update`. -/
def Delta.nonempty (d : Delta) : Bool :=
  d.zones_status.isSome || d.areas_status.isSome

/-- What `self.get_info()` does on one poller tick: a snapshot, or a
`Paradox_IP150_Error` (the only exception the tick-level handler catches). -/
inductive Fetch where
  | ok (st : Snapshot)
  | perr
deriving DecidableEq, Repr

/-- The observable outcome of a poller run: the `on_update` arguments in
order, the `on_error` arguments, the final `prev_state` and `retry_count`,
and whether the loop was aborted by the raised exception. -/
structure PollRes where
  deltas : List Delta
  errors : List String
  finalPrev : Option Snapshot
  finalRetry : Nat
  aborted : Bool
deriving DecidableEq, Repr

/-- The loop of `_get_updates` run over a finite list of tick outcomes
(an empty remainder models the stop event becoming set).  A failed fetch
increments `retry_count` and, past `max_retry_count`, raises
"Max retry count exceeded", which the outer handler passes to `on_error`
when one was supplied; a successful fetch resets `retry_count`, emits the
nonempty delta, and replaces `prev_state`. -/
def runPoller (on_error : Bool) (max_retry_count : Nat) (prev : Option Snapshot)
    (retry : Nat) : List Fetch → PollRes
  | [] => ⟨[], [], prev, retry, false⟩
  | .perr :: fs =>
    if retry + 1 > max_retry_count then
      ⟨[], if on_error then ["Max retry count exceeded"] else [],
       prev, retry + 1, true⟩
    else runPoller on_error max_retry_count prev (retry + 1) fs
  | .ok cur :: fs =>
    let d := computeDelta prev cur
    let rest := runPoller on_error max_retry_count (some cur) 0 fs
    ⟨(if d.nonempty then [d] else []) ++ rest.deltas, rest.errors,
     rest.finalPrev, rest.finalRetry, rest.aborted⟩

/-! ## Helper lemmas -/

/-- Running the poller over `n` consecutive failed fetches that stay within
the retry bound only advances the retry counter. -/
theorem runPoller_replicate_perr (oe : Bool) (mr : Nat) :
    ∀ (n r : Nat), r + n ≤ mr → ∀ (prev : Option Snapshot) (l : List Fetch),
      runPoller oe mr prev r (List.replicate n .perr ++ l)
        = runPoller oe mr prev (r + n) l := by
  intro n
  induction n with
  | zero => intro r _ prev l; simp
  | succ m ih =>
    intro r h prev l
    have h1 : ¬ (r + 1 > mr) := by omega
    rw [List.replicate_succ, List.cons_append]
    show runPoller oe mr prev r (.perr :: (List.replicate m .perr ++ l)) = _
    rw [runPoller, if_neg h1, ih (r + 1) (by omega) prev l]
    congr 1
    omega

/-- Diffing a list against itself yields nothing. -/
theorem diffList_refl : ∀ l, diffList l l = [] := by
  intro l
  induction l with
  | nil => rfl
  | cons a t ih => simpa [diffList] using ih

/-- Appended trailing entries fall outside the zip and yield nothing. -/
theorem diffList_append_self : ∀ l e, diffList (l ++ e) l = [] := by
  intro l e
  induction l with
  | nil => simp [diffList]
  | cons a t ih => simpa [diffList] using ih

/-- A truncated current list agrees with the previous one on the zip. -/
theorem diffList_take_self : ∀ l n, diffList (l.take n) l = [] := by
  intro l
  induction l with
  | nil => intro n; simp [diffList]
  | cons a t ih =>
    intro n
    cases n with
    | zero => rfl
    | succ m => simpa [diffList] using ih m

/-- Zipping a list with itself only produces diagonal pairs. -/
theorem mem_zip_self {α : Type} : ∀ (l : List α) (x y : α),
    (x, y) ∈ l.zip l → x = y := by
  intro l
  induction l with
  | nil => intro x y h; simp at h
  | cons a t ih =>
    intro x y h
    rw [List.zip_cons_cons] at h
    rcases List.mem_cons.mp h with he | h2
    · rw [Prod.mk.injEq] at he
      rw [he.1, he.2]
    · exact ih x y h2

/-- A single positional difference yields exactly the current entry. -/
theorem diffList_single (x y : Nat × String) (hxy : x ≠ y) :
    ∀ pre post, diffList (pre ++ x :: post) (pre ++ y :: post) = [x] := by
  intro pre post
  induction pre with
  | nil =>
    simp only [List.nil_append]
    simp [diffList, hxy]
    intro a b a1 b1 h
    have he := mem_zip_self post (a, b) (a1, b1) h
    exact ⟨congrArg Prod.fst he, congrArg Prod.snd he⟩
  | cons a t ih => simpa [diffList] using ih

/-- Every diffed entry comes from the compared (zipped) prefix of the
current list. -/
theorem diffList_mem_take : ∀ (c p : List (Nat × String)) (x : Nat × String),
    x ∈ diffList c p → x ∈ c.take p.length := by
  intro c
  induction c with
  | nil => intro p x h; simp [diffList] at h
  | cons a t ih =>
    intro p x h
    cases p with
    | nil => simp [diffList] at h
    | cons b q =>
      simp only [diffList, List.zip_cons_cons, List.filterMap_cons] at h
      by_cases hab : a = b
      · subst hab
        simp only [ne_eq, not_true_eq_false, if_false] at h
        exact List.mem_cons_of_mem a (ih q x h)
      · simp only [ne_eq, hab, not_false_eq_true, if_true] at h
        rcases List.mem_cons.mp h with rfl | h2
        · exact List.mem_cons_self _ _
        · exact List.mem_cons_of_mem a (ih q x h2)

/-- Containment in a suffix is preserved by prepending text. -/
theorem containsSub_append_right (pat : List Char) :
    ∀ (l r : List Char), containsSub pat r = true → containsSub pat (l ++ r) = true := by
  intro l
  induction l with
  | nil => intro r h; simpa using h
  | cons c t ih =>
    intro r h
    have h2 := ih r h
    rw [List.cons_append]
    unfold containsSub strFind
    by_cases hp : pat.isPrefixOf (c :: (t ++ r))
    · simp [hp]
    · unfold containsSub at h2
      rcases Option.isSome_iff_exists.mp h2 with ⟨k, hk⟩
      simp [hp, hk]

/-- String concatenation concatenates the character lists. -/
theorem string_data_append (a b : String) : (a ++ b).data = a.data ++ b.data := rfl

/-- Containment in the second string is preserved by prepending a string. -/
theorem containsSub_data_append_right (pat : List Char) (a b : String) :
    containsSub pat b.data = true → containsSub pat (a ++ b).data = true := by
  intro h
  rw [string_data_append]
  exact containsSub_append_right pat a.data b.data h

/-- `decodeFrom` pairs each raw code, in order, with its position counted
from the start index and its mapped name. -/
theorem decodeFrom_spec (m : Int → Option String) :
    ∀ (codes : List Int) (i : Nat) (res : List (Nat × String)),
      decodeFrom m i codes = some res →
        res.length = codes.length ∧
        ∀ j, j < codes.length →
          (res.getD j (0, "")).1 = i + j ∧
          m (codes.getD j 0) = some (res.getD j (0, "")).2 := by
  intro codes
  induction codes with
  | nil =>
    intro i res h
    simp only [decodeFrom, Option.some.injEq] at h
    subst h
    exact ⟨rfl, fun j hj => absurd hj (Nat.not_lt_zero j)⟩
  | cons x xs ih =>
    intro i res h
    simp only [decodeFrom] at h
    cases hx : m x with
    | none => rw [hx] at h; exact absurd h (by simp)
    | some v =>
      rw [hx] at h
      cases hr : decodeFrom m (i + 1) xs with
      | none => rw [hr] at h; exact absurd h (by simp)
      | some rest =>
        rw [hr] at h
        simp only [Option.some.injEq] at h
        subst h
        obtain ⟨hlen, hall⟩ := ih (i + 1) rest hr
        refine ⟨by simp [hlen], fun j hj => ?_⟩
        cases j with
        | zero => exact ⟨rfl, by simpa using hx⟩
        | succ k =>
          have hk : k < xs.length := by simpa using hj
          obtain ⟨h1, h2⟩ := hall k hk
          exact ⟨by simpa [Nat.add_assoc, Nat.add_comm 1 k] using h1, by simpa using h2⟩

/-- `range(n - 1, -1, -1)` visits `n - 1, ..., 0`: the reversed `range n`. -/
theorem pyRangeDown_go_eq : ∀ n : Nat,
    pyRangeDown.go n ((n : Int) - 1) = (List.range n).reverse.map Int.ofNat := by
  intro n
  induction n with
  | zero => rfl
  | succ m ih =>
    have h1 : ((m + 1 : Nat) : Int) - 1 = (m : Int) := by push_cast; ring
    rw [pyRangeDown.go, h1]
    have h2 : (m : Int) - 1 = ((m : Nat) : Int) - 1 := rfl
    rw [h2, ih, List.range_succ, List.reverse_append]
    simp

/-! ## Claims -/

/-- C1: in `_get_updates` with the default `max_retry_count = 5`, six
consecutive `Paradox_IP150_Error` fetches terminate the loop on the sixth
with exactly one `on_error` invocation ("Max retry count exceeded") and no
update callbacks, regardless of any later ticks; a run of at most five
consecutive failures followed by a success is never surfaced — the
counter resets to 0 and the loop continues exactly as a normal success
tick would. -/
theorem c1_retry_bound :
    (∀ (prev : Option Snapshot) (fs : List Fetch),
        runPoller true 5 prev 0 (List.replicate 6 .perr ++ fs)
          = ⟨[], ["Max retry count exceeded"], prev, 6, true⟩)
  ∧ (∀ (n : Nat), n ≤ 5 → ∀ (prev : Option Snapshot) (s : Snapshot) (fs : List Fetch),
        runPoller true 5 prev 0 (List.replicate n .perr ++ .ok s :: fs)
          = (let d := computeDelta prev s
             let rest := runPoller true 5 (some s) 0 fs
             ⟨(if d.nonempty then [d] else []) ++ rest.deltas, rest.errors,
              rest.finalPrev, rest.finalRetry, rest.aborted⟩)) := by
  constructor
  · intro prev fs
    rw [List.replicate_succ', List.append_assoc, List.singleton_append]
    rw [runPoller_replicate_perr true 5 5 0 (by omega) prev (.perr :: fs)]
    simp [runPoller]
  · intro n hn prev s fs
    rw [runPoller_replicate_perr true 5 n 0 (by omega) prev (.ok s :: fs)]
    rfl

/-- Witness for C1: five failures then a success on an empty snapshot,
instantiated from the theorem. -/
theorem c1_retry_bound_witness :
    (5 ≤ 5) ∧
    runPoller true 5 none 0 (List.replicate 5 .perr ++ .ok ⟨[], []⟩ :: [])
      = (let d := computeDelta none ⟨[], []⟩
         let rest := runPoller true 5 (some ⟨[], []⟩) 0 []
         ⟨(if d.nonempty then [d] else []) ++ rest.deltas, rest.errors,
          rest.finalPrev, rest.finalRetry, rest.aborted⟩) :=
  ⟨by decide, c1_retry_bound.2 5 (by decide) none ⟨[], []⟩ []⟩

/-- C2: the poller's diff law: a first tick (empty previous state) reports
every category in full and fires the callback; identical consecutive
snapshots yield the empty delta and no callback while the snapshot still
becomes the new previous one; a single changed `zones_status` entry yields
exactly that entry, and the fetched snapshot becomes the new previous. -/
theorem c2_diff_law :
    (∀ cur : Snapshot,
        computeDelta none cur = ⟨some cur.zones_status, some cur.areas_status⟩
        ∧ (computeDelta none cur).nonempty = true)
  ∧ (∀ s : Snapshot,
        computeDelta (some s) s = ⟨none, none⟩
        ∧ runPoller true 5 (some s) 0 [.ok s] = ⟨[], [], some s, 0, false⟩)
  ∧ (∀ (pre post ar : List (Nat × String)) (i : Nat) (a b : String), a ≠ b →
        runPoller true 5 (some ⟨pre ++ (i, b) :: post, ar⟩) 0
            [.ok ⟨pre ++ (i, a) :: post, ar⟩]
          = ⟨[⟨some [(i, a)], none⟩], [],
             some ⟨pre ++ (i, a) :: post, ar⟩, 0, false⟩) := by
  refine ⟨fun cur => ⟨rfl, rfl⟩, fun s => ?_, fun pre post ar i a b hab => ?_⟩
  · have hz := diffList_refl s.zones_status
    have ha := diffList_refl s.areas_status
    have hd : computeDelta (some s) s = ⟨none, none⟩ := by
      simp [computeDelta, diffCat, hz, ha]
    refine ⟨hd, ?_⟩
    simp [runPoller, hd, Delta.nonempty]
  · have hxy : ((i, a) : Nat × String) ≠ (i, b) := by simp [hab]
    have h1 := diffList_single (i, a) (i, b) hxy pre post
    have h2 := diffList_refl ar
    simp [runPoller, computeDelta, diffCat, h1, h2, Delta.nonempty]

/-- Witness for C2: the spec's example — only index 3 of `zones_status`
changes from Open to Closed, and the delta is exactly `[(3, Closed)]`. -/
theorem c2_diff_law_witness :
    runPoller true 5 (some ⟨[(1, "Closed"), (2, "Closed"), (3, "Open")], []⟩) 0
        [.ok ⟨[(1, "Closed"), (2, "Closed"), (3, "Closed")], []⟩]
      = ⟨[⟨some [(3, "Closed")], none⟩], [],
         some ⟨[(1, "Closed"), (2, "Closed"), (3, "Closed")], []⟩, 0, false⟩ :=
  c2_diff_law.2.2 [(1, "Closed"), (2, "Closed")] [] [] 3 "Closed" "Open" (by decide)

set_option maxRecDepth 1000000 in
/-- C3: `_prep_cred("1234", "test", "7BB0A0C78D08A8CE")` yields exactly
p = "14A3DD3D3BFD389B272BB5BCD27FF88E" and u = "80815A09"; the reduced
password hashes to "098F6BCD4621D373CADE4E832627B4F6", and the cipher of
"1234" keyed by the salted pass is exactly "80815A09". -/
theorem c3_credential_encoding :
    prep_cred "1234" "test" "7BB0A0C78D08A8CE"
        = ("14A3DD3D3BFD389B272BB5BCD27FF88E", "80815A09")
  ∧ md5HexUpper (strBytes (to_8bits "test")) = "098F6BCD4621D373CADE4E832627B4F6"
  ∧ paradox_rc4 "1234" "098F6BCD4621D373CADE4E832627B4F67BB0A0C78D08A8CE"
        = "80815A09" :=
  ⟨by decide, by decide, by decide⟩

set_option maxRecDepth 4000 in
/-- C4 counterexample: for the one-character key "A" the key-scheduling
loop performs a single iteration visiting only index 0 — not 256 iterations
from 255 down to 0. -/
theorem c4_counterexample :
    (ksaIndices (strBytes "A")).length = 1
    ∧ ksaIndices (strBytes "A") ≠ pyRangeDown 255 (-1) := by decide

/-- C4 (amended): for every key, the key-scheduling loop of `_paradox_rc4`
iterates its index from `len(key) - 1` down to 0 — exactly `len(key)`
iterations in descending order, not a fixed 256. -/
theorem c4_ksa_descending :
    ∀ key : List Nat,
      ksaIndices key = (List.range key.length).reverse.map Int.ofNat
      ∧ (ksaIndices key).length = key.length := by
  intro key
  have h : ksaIndices key = pyRangeDown.go key.length ((key.length : Int) - 1) := by
    unfold ksaIndices pyRangeDown
    congr 1
    have h2 : ((key.length : Int) - 1 - (-1)) = (key.length : Int) := by ring
    rw [h2]
    exact Int.toNat_natCast key.length
  rw [h, pyRangeDown_go_eq]
  exact ⟨rfl, by simp⟩

/-- C5 counterexample: in the state left behind by the poller's `finally`
after retry exhaustion (logged in, keepalive and updates handles still set,
stop flag cleared), a `get_updates` call with a valid callback and a
positive interval and no intervening `cancel_updates` is rejected with
"Already getting updates." instead of succeeding. -/
theorem c5_counterexample :
    get_updates (pollerExit ⟨true, true, true, false⟩) true 1
      = (⟨true, true, true, false⟩, some "Already getting updates.") := by decide

/-- C5 (amended): after the poller exits with retries exhausted, the stop
flag is reset and the session stays logged in, but the `_updates` handle is
not cleared: `get_updates` without an intervening `cancel_updates` is
rejected with "Already getting updates.", and only after `cancel_updates`
does a new `get_updates` succeed. -/
theorem c5_poller_exit_restart :
    ∀ (k st : Bool),
      (pollerExit ⟨true, k, true, st⟩).stop_updates = false
      ∧ (pollerExit ⟨true, k, true, st⟩).logged_in = true
      ∧ get_updates (pollerExit ⟨true, k, true, st⟩) true 1
          = (pollerExit ⟨true, k, true, st⟩, some "Already getting updates.")
      ∧ (get_updates ((cancel_updates (pollerExit ⟨true, k, true, st⟩)).1) true 1).2
          = none
      ∧ (get_updates ((cancel_updates (pollerExit ⟨true, k, true, st⟩)).1) true 1).1.updates
          = true := by decide

/-- C6: a failed logout HTTP call (non-200 status) raises
"Error logging out" after the keepalive has already been canceled, joined
and cleared and any running poller signaled and cleared, while `_logged_in`
remains true — the inconsistent intermediate state is observable. -/
theorem c6_logout_not_atomic :
    ∀ (k u st : Bool) (code : Nat), code ≠ 200 →
      logout ⟨true, k, u, st⟩ code
        = (⟨true, false, false, st || u⟩, [.logout_page],
           some "Error logging out") := by
  intro k u st code h
  cases k <;> cases u <;> cases st <;> simp [logout, h]

/-- Witness for C6: logged in with keepalive and poller running, status
404. -/
theorem c6_logout_not_atomic_witness :
    logout ⟨true, true, true, false⟩ 404
      = (⟨true, false, false, true⟩, [.logout_page],
         some "Error logging out") :=
  c6_logout_not_atomic true true false 404 (by decide)

/-- C7: state guards: `login` while logged in fails with the already-logged-
in error, makes no request and changes nothing; `logout`, `get_info`,
`set_area_action`, `get_updates` and `cancel_updates` while not logged in
fail with the not-logged-in error before any request or state change. -/
theorem c7_state_guards :
    (∀ (k u st : Bool) (user pwd : String) (i : Int) (env : LoginEnv),
        login ⟨true, k, u, st⟩ user pwd i env
          = (⟨true, k, u, st⟩, [],
             some "Already logged in; please use logout() first."))
  ∧ (∀ (k u st : Bool) (code : Nat),
        logout ⟨false, k, u, st⟩ code = (⟨false, k, u, st⟩, [], some notLoggedMsg))
  ∧ (∀ (k u st : Bool) (resp : GetResp),
        get_info ⟨false, k, u, st⟩ resp = ([], .error (.paradox notLoggedMsg)))
  ∧ (∀ (k u st : Bool) (area : Int) (action : String) (code : Nat),
        set_area_action ⟨false, k, u, st⟩ area action code
          = ([], some notLoggedMsg))
  ∧ (∀ (k u st : Bool) (ou : Bool) (pi : Int),
        get_updates ⟨false, k, u, st⟩ ou pi = (⟨false, k, u, st⟩, some notLoggedMsg))
  ∧ (∀ (k u st : Bool),
        cancel_updates ⟨false, k, u, st⟩ = (⟨false, k, u, st⟩, some notLoggedMsg)) :=
  ⟨fun _ _ _ _ _ _ _ => rfl, fun _ _ _ _ => rfl, fun _ _ _ _ => rfl,
   fun _ _ _ _ _ _ => rfl, fun _ _ _ _ _ => rfl, fun _ _ _ => rfl⟩

/-- C8: for a logged-in session a status page with the `statuslive` form and
the two script array declarations decodes to exactly the stated zone and
area lists; in general `decodeFrom` pairs 1-based positions with the mapped
state names in declaration order. -/
theorem c8_status_decode :
    (∀ (k u st : Bool),
        get_info ⟨true, k, u, st⟩ (.page ⟨true,
            "tbl_statuszone = new Array(0,0,1);\ntbl_useraccess = new Array(9,8,0,0);"⟩)
          = ([.statuslive],
             .ok ⟨[(1, "Closed"), (2, "Closed"), (3, "Open")],
                  [(1, "Not_ready"), (2, "Ready"), (3, "Unset"), (4, "Unset")]⟩))
  ∧ (∀ (m : Int → Option String) (codes : List Int) (res : List (Nat × String)),
        decodeFrom m 1 codes = some res →
          res.length = codes.length ∧
          ∀ j, j < codes.length →
            (res.getD j (0, "")).1 = j + 1
            ∧ m (codes.getD j 0) = some (res.getD j (0, "")).2) := by
  constructor
  · decide
  · intro m codes res h
    obtain ⟨h1, h2⟩ := decodeFrom_spec m codes 1 res h
    refine ⟨h1, fun j hj => ?_⟩
    obtain ⟨ha, hb⟩ := h2 j hj
    exact ⟨by omega, hb⟩

/-- Witness for C8: the zones table decodes `[0, 0, 1]` to the claimed
list, and the general ordering statement instantiated there. -/
theorem c8_status_decode_witness :
    decodeFrom zones_map 1 [0, 0, 1]
        = some [(1, "Closed"), (2, "Closed"), (3, "Open")]
    ∧ (([(1, "Closed"), (2, "Closed"), (3, "Open")] : List (Nat × String)).length
          = ([0, 0, 1] : List Int).length
        ∧ ∀ j, j < ([0, 0, 1] : List Int).length →
            (([(1, "Closed"), (2, "Closed"), (3, "Open")] :
                List (Nat × String)).getD j (0, "")).1 = j + 1
            ∧ zones_map (([0, 0, 1] : List Int).getD j 0)
                = some (([(1, "Closed"), (2, "Closed"), (3, "Open")] :
                    List (Nat × String)).getD j (0, "")).2) :=
  ⟨by decide,
   c8_status_decode.2 zones_map [0, 0, 1]
     [(1, "Closed"), (2, "Closed"), (3, "Open")] (by decide)⟩

/-- C9: `set_area_action` while logged in: area 1 with "Arm" submits exactly
area "00" and value "r"; any area at most 0 fails with the invalid-area
error before any request, whatever the action; any unrecognized action (with
a valid area) fails before any request with the invalid-action error, whose
message contains all four valid action names. -/
theorem c9_area_action :
    (∀ (k u st : Bool),
        set_area_action ⟨true, k, u, st⟩ 1 "Arm" 200
          = ([.statuslive_action "00" "r"], none))
  ∧ (∀ (k u st : Bool) (area : Int), area ≤ 0 → ∀ (action : String) (code : Nat),
        set_area_action ⟨true, k, u, st⟩ area action code
          = ([], some "Invalid area provided."))
  ∧ (∀ (k u st : Bool) (area : Int) (action : String) (code : Nat),
        1 ≤ area → areas_action_map action = none →
        set_area_action ⟨true, k, u, st⟩ area action code
          = ([], some (invalidActionMsg action)))
  ∧ (∀ (action : String),
        (["Disarm", "Arm", "Arm_sleep", "Arm_stay"].all
          (fun nm => containsSub nm.data (invalidActionMsg action).data)) = true) := by
  refine ⟨by decide, ?_, ?_, ?_⟩
  · intro k u st area h action code
    have h2 : area - 1 < 0 := by omega
    simp [set_area_action, h2]
  · intro k u st area action code h hmap
    have h2 : ¬ (area - 1 < 0) := by omega
    simp [set_area_action, h2, hmap]
  · intro action
    simp only [List.all_cons, List.all_nil, Bool.and_eq_true, and_true]
    refine ⟨?_, ?_, ?_, ?_⟩ <;>
      exact containsSub_data_append_right _ _ _ (by decide)

/-- Witness for C9: area 0 is rejected as invalid, and the unknown action
"test" is rejected with the message listing the valid actions. -/
theorem c9_area_action_witness :
    set_area_action ⟨true, false, false, false⟩ 0 "Arm" 200
        = ([], some "Invalid area provided.")
    ∧ set_area_action ⟨true, false, false, false⟩ 1 "test" 200
        = ([], some (invalidActionMsg "test")) :=
  ⟨c9_area_action.2.1 false false false 0 (by decide) "Arm" 200,
   c9_area_action.2.2.1 false false false 1 "test" 200 (by decide) (by decide)⟩

/-- C10: categories present in both snapshots are compared only up to the
shorter entry list (positional zip): a pure extension or a pure truncation
of both categories yields the empty delta and no update callback, and every
entry the diff reports comes from the zipped prefix of the current list. -/
theorem c10_zip_truncation :
    (∀ (p : Snapshot) (zx ax : List (Nat × String)) (n m : Nat),
        computeDelta (some p) ⟨p.zones_status ++ zx, p.areas_status ++ ax⟩
            = ⟨none, none⟩
        ∧ (computeDelta (some p) ⟨p.zones_status ++ zx, p.areas_status ++ ax⟩).nonempty
            = false
        ∧ computeDelta (some p) ⟨p.zones_status.take n, p.areas_status.take m⟩
            = ⟨none, none⟩
        ∧ runPoller true 5 (some p) 0
              [.ok ⟨p.zones_status ++ zx, p.areas_status ++ ax⟩]
            = ⟨[], [], some ⟨p.zones_status ++ zx, p.areas_status ++ ax⟩, 0, false⟩)
  ∧ (∀ (c p : List (Nat × String)) (x : Nat × String),
        x ∈ diffList c p → x ∈ c.take p.length) := by
  constructor
  · intro p zx ax n m
    have h1 := diffList_append_self p.zones_status zx
    have h2 := diffList_append_self p.areas_status ax
    have h3 := diffList_take_self p.zones_status n
    have h4 := diffList_take_self p.areas_status m
    have hd : computeDelta (some p) ⟨p.zones_status ++ zx, p.areas_status ++ ax⟩
        = ⟨none, none⟩ := by
      simp [computeDelta, diffCat, h1, h2]
    have hd2 : computeDelta (some p) ⟨p.zones_status.take n, p.areas_status.take m⟩
        = ⟨none, none⟩ := by
      simp [computeDelta, diffCat, h3, h4]
    refine ⟨hd, by rw [hd]; rfl, hd2, ?_⟩
    simp [runPoller, hd, Delta.nonempty]
  · exact fun c p x h => diffList_mem_take c p x h

/-- Witness for C10: the entry (1, Open) reported for a current list longer
than the previous one lies in the zipped (length-1) prefix. -/
theorem c10_zip_truncation_witness :
    ((1, "Open") : Nat × String) ∈
      ([(1, "Open"), (2, "Open")] : List (Nat × String)).take
        ([(1, "Closed")] : List (Nat × String)).length :=
  c10_zip_truncation.2 [(1, "Open"), (2, "Open")] [(1, "Closed")] (1, "Open")
    (by decide)

end IP150
